import Mathlib

/-!
Verification of the PodDB automated synchronization engine against its
specification.  The backend services (quota tracker, per-entry synchronizer,
sync orchestrator, analytics aggregator, scheduler) are modelled from the
specification, since the repository snapshot contains only their frontend
consumers (`services/api.js`, `services/adminApi.js`), the admin page
`SyncManagementPage.jsx` and the contribution form
`ContributionForm.jsx`.  Frontend behaviour is embedded directly from those
source files.
-/

/-! ## Data model (spec §3) -/

/-- Modelled from the spec: Episode row — id, catalog_entry_id,
external_video_id (unique per entry), title, thumbnail_url, published_at,
sequence_number.  The backend table definition is not in the snapshot. -/
structure Episode where
  id : Nat
  catalogEntryId : Nat
  externalVideoId : String
  title : String
  thumbnailUrl : String
  publishedAt : String
  sequenceNumber : Nat
deriving DecidableEq, Repr

/-- Modelled from the spec: CatalogEntry — id, external_playlist_id,
approval_state (here a Bool `approved`).  Eligible for sync iff approved and
external_playlist_id non-empty. -/
structure CatalogEntry where
  id : Nat
  externalPlaylistId : String
  approved : Bool
deriving DecidableEq, Repr

/-- Modelled from the spec: one playlist item as returned by the external
platform's listing call, together with the outcome of its per-item
collaborator calls (detail fetch, thumbnail mirror), which the spec treats
as per-item failure points. -/
structure PlaylistItem where
  videoId : String
  title : String
  thumbnailUrl : String
  publishedAt : String
  detailOk : Bool
  mirrorOk : Bool
deriving DecidableEq, Repr

/-- Modelled from the spec: ApiUsageRecord — units_consumed, request_count
for the current day (the day rollover is outside the model). -/
structure ApiUsageRecord where
  unitsConsumed : Nat
  requestCount : Nat
deriving DecidableEq, Repr

/-- Modelled from the spec: the typed view of the SyncConfig table
(sync_enabled, batch_size, quota_limit, pause_threshold_pct).  The pause
threshold is stored as a whole percentage (90 stands for 0.9). -/
structure SyncConfig where
  syncEnabled : Bool
  batchSize : Nat
  quotaLimit : Nat
  pauseThresholdPct : Nat
deriving DecidableEq, Repr

/-- Modelled from the spec: SyncError — job_id, error_type, entity_type,
entity_id, message. -/
structure SyncError where
  jobId : Nat
  errorType : String
  entityType : String
  entityId : String
  message : String
deriving DecidableEq, Repr

/-- Modelled from the spec: SyncJob status values. -/
inductive JobStatus where
  | pending
  | running
  | completed
  | failed
  | paused
deriving DecidableEq, Repr

/-- Modelled from the spec: SyncJob — id, job_type, status and the
aggregate counters items_processed / items_updated / items_failed /
new_episodes_found. -/
structure SyncJob where
  id : Nat
  jobType : String
  status : JobStatus
  itemsProcessed : Nat
  itemsUpdated : Nat
  itemsFailed : Nat
  newEpisodesFound : Nat
deriving DecidableEq, Repr

/-! ## Quota tracker (spec §4.1) -/

/-- Modelled from the spec: `reserve(cost)` is true iff today's
units_consumed + cost ≤ quota_limit × pause_threshold_pct.  With the
threshold stored as a percentage the comparison is the exact integer test
100·(units_consumed + cost) ≤ quota_limit·pauseThresholdPct. -/
def reserve (cfg : SyncConfig) (usage : ApiUsageRecord) (cost : Nat) : Bool :=
  decide (100 * (usage.unitsConsumed + cost) ≤ cfg.quotaLimit * cfg.pauseThresholdPct)

/-- Modelled from the spec: `record(cost)` increments the day's counter
after a successful external call. -/
def record (usage : ApiUsageRecord) (cost : Nat) : ApiUsageRecord :=
  { unitsConsumed := usage.unitsConsumed + cost
    requestCount := usage.requestCount + 1 }

/-! ## Per-entry synchronizer (spec §4.2) -/

/-- Persistent state seen by the synchronizer: Episode rows, SyncError
rows, today's ApiUsageRecord and the next Episode primary key. -/
structure SyncState where
  episodes : List Episode
  errors : List SyncError
  usage : ApiUsageRecord
  nextEpisodeId : Nat
deriving DecidableEq, Repr

/-- external_video_ids already stored for one catalog entry. -/
def storedIds (entryId : Nat) (eps : List Episode) : List String :=
  (eps.filter (fun e => e.catalogEntryId == entryId)).map (fun e => e.externalVideoId)

/-- Largest sequence_number stored for one catalog entry (0 when none). -/
def maxSeq (entryId : Nat) (eps : List Episode) : Nat :=
  ((eps.filter (fun e => e.catalogEntryId == entryId)).map
    (fun e => e.sequenceNumber)).foldr max 0

/-- Playlist items whose video id is not yet stored for this entry
(spec §4.2 step 3: diff against stored Episode ids). -/
def newItems (entryId : Nat) (eps : List Episode) (items : List PlaylistItem) :
    List PlaylistItem :=
  items.filter (fun it => !((storedIds entryId eps).contains it.videoId))

/-- Modelled from the spec (§4.2 step 4): process one new item.  A failed
detail fetch (deleted upstream video) is skipped and logged, not fatal.  A
failed thumbnail mirror logs an ImageMirrorError but the Episode is still
inserted, falling back to the original external URL; otherwise the mirrored
URL is used.  The inserted episode gets sequence_number = max+1.  Returns
the new state and how many episodes were inserted (0 or 1). -/
def processNewItem (mirror : String → String) (jobId entryId : Nat)
    (st : SyncState) (item : PlaylistItem) : SyncState × Nat :=
  if item.detailOk then
    let thumb := if item.mirrorOk then mirror item.thumbnailUrl else item.thumbnailUrl
    let errs :=
      if item.mirrorOk then st.errors
      else st.errors ++
        [⟨jobId, "ImageMirrorError", "episode", item.videoId, "thumbnail mirror failed"⟩]
    let ep : Episode :=
      ⟨st.nextEpisodeId, entryId, item.videoId, item.title, thumb,
        item.publishedAt, maxSeq entryId st.episodes + 1⟩
    ({ st with
        episodes := st.episodes ++ [ep]
        errors := errs
        nextEpisodeId := st.nextEpisodeId + 1 }, 1)
  else
    ({ st with
        errors := st.errors ++
          [⟨jobId, "PlatformError", "episode", item.videoId, "detail fetch failed"⟩] }, 0)

/-- Fold `processNewItem` over the ordered new-episode set, counting
insertions.  A single item failure never aborts the rest. -/
def insertNewItems (mirror : String → String) (jobId entryId : Nat) :
    SyncState → List PlaylistItem → SyncState × Nat
  | st, [] => (st, 0)
  | st, item :: rest =>
    let p := processNewItem mirror jobId entryId st item
    let q := insertNewItems mirror jobId entryId p.1 rest
    (q.1, p.2 + q.2)

/-- Result of one per-entry sync. -/
inductive SyncOutcome where
  | ok (updated : Bool) (newEpisodes : Nat)
  | quotaExceeded
  | platformError
deriving DecidableEq, Repr

/-- Modelled from the spec (§4.2): per-entry `sync`.  The platform
collaborator maps a playlist id to its current items, oldest-first (`none`
models a network/4xx/5xx listing failure, returned as PlatformError with no
partial writes).  Cost is one listing call plus one detail call per unseen
video; a denied `reserve` returns QuotaExceeded with no state change, and
`record` runs after the successful work. -/
def sync (cfg : SyncConfig) (mirror : String → String)
    (platform : String → Option (List PlaylistItem))
    (jobId : Nat) (entry : CatalogEntry) (st : SyncState) :
    SyncState × SyncOutcome :=
  match platform entry.externalPlaylistId with
  | none => (st, .platformError)
  | some items =>
    let fresh := newItems entry.id st.episodes items
    let cost := 1 + fresh.length
    if reserve cfg st.usage cost then
      let p := insertNewItems mirror jobId entry.id st fresh
      ({ p.1 with usage := record p.1.usage cost }, .ok (decide (0 < p.2)) p.2)
    else
      (st, .quotaExceeded)

/-! ## Sync orchestrator (spec §4.3) -/

/-- Modelled from the spec: eligibility — approved and external_playlist_id
non-empty. -/
def eligible (e : CatalogEntry) : Bool :=
  e.approved && e.externalPlaylistId != ""

/-- Modelled from the spec (§4.3 step 3): run the synchronizer over a batch
of entries, threading state and accumulating the job counters.
QuotaExceeded sets status=paused and stops immediately (remaining entries
unvisited, the quota-hit entry still counted as processed per Scenario C);
any other per-entry error appends a SyncError, increments items_failed and
continues; normal completion sets status=completed. -/
def runBatch (cfg : SyncConfig) (mirror : String → String)
    (platform : String → Option (List PlaylistItem)) :
    List CatalogEntry → SyncState → SyncJob → SyncState × SyncJob
  | [], st, job => (st, { job with status := .completed })
  | e :: rest, st, job =>
    let r := sync cfg mirror platform job.id e st
    match r.2 with
    | .quotaExceeded =>
      (r.1, { job with status := .paused, itemsProcessed := job.itemsProcessed + 1 })
    | .platformError =>
      runBatch cfg mirror platform rest
        { r.1 with errors := r.1.errors ++
            [⟨job.id, "PlatformError", "podcast", toString e.id, "listing failed"⟩] }
        { job with
            itemsProcessed := job.itemsProcessed + 1
            itemsFailed := job.itemsFailed + 1 }
    | .ok updated n =>
      runBatch cfg mirror platform rest r.1
        { job with
            itemsProcessed := job.itemsProcessed + 1
            itemsUpdated := job.itemsUpdated + (if updated then 1 else 0)
            newEpisodesFound := job.newEpisodesFound + n }

/-! ## System-level running guard (spec §4.3, §5) -/

/-- System-wide state: the persisted is_running indicator, the SyncJob
table and the next job id, plus the configuration read at operation
start. -/
structure SysState where
  isRunning : Bool
  jobs : List SyncJob
  nextJobId : Nat
  cfg : SyncConfig
deriving DecidableEq, Repr

/-- Result reported to a caller that triggers an operation. -/
inductive TriggerResult where
  | alreadyRunning
  | started (jobId : Nat)
deriving DecidableEq, Repr

/-- Modelled from the spec: the shared "start if not running" guard every
trigger funnels through.  While a job runs it answers "already running"
with no state mutation and no new SyncJob row; otherwise it creates the
SyncJob(running) row and sets is_running. -/
def startOperation (jobType : String) (s : SysState) : SysState × TriggerResult :=
  if s.isRunning then
    (s, .alreadyRunning)
  else
    ({ s with
        isRunning := true
        jobs := s.jobs ++ [⟨s.nextJobId, jobType, .running, 0, 0, 0, 0⟩]
        nextJobId := s.nextJobId + 1 },
     .started s.nextJobId)

/-- Number of SyncJob rows currently in status running. -/
def runningCount (jobs : List SyncJob) : Nat :=
  (jobs.filter (fun j => j.status == .running)).length

/-- The concurrency invariant: at most one running SyncJob system-wide, and
none at all when the is_running indicator is clear. -/
def SysInv (s : SysState) : Prop :=
  runningCount s.jobs ≤ 1 ∧ (s.isRunning = false → runningCount s.jobs = 0)

/-- Move a running job to the given terminal status, leaving terminal rows
immutable. -/
def markTerminal (final : JobStatus) (j : SyncJob) : SyncJob :=
  if j.status == .running then { j with status := final } else j

/-- Modelled from the spec: finishing the owning run moves the running
SyncJob row to a terminal status and clears is_running. -/
def finishOperation (final : JobStatus) (s : SysState) : SysState :=
  { s with isRunning := false, jobs := s.jobs.map (markTerminal final) }

/-! ## Scheduler (spec §4.5) -/

/-- Modelled from the spec: a calendar trigger firing one named operation.
When sync_enabled is false the tick is a no-op; otherwise it funnels into
the same `startOperation` guard as a manual call. -/
def scheduledTrigger (jobType : String) (s : SysState) :
    SysState × Option TriggerResult :=
  if s.cfg.syncEnabled then
    let r := startOperation jobType s
    (r.1, some r.2)
  else
    (s, none)

/-- Modelled from the spec: a manual invocation (runFullSync,
checkNewEpisodes, recalculateAnalytics) reaches the identical Orchestrator
entry point regardless of the sync_enabled flag. -/
def manualTrigger (jobType : String) (s : SysState) : SysState × TriggerResult :=
  startOperation jobType s

/-- Replace the stored sync_enabled flag (the enable()/disable() toggle). -/
def setSyncEnabled (b : Bool) (s : SysState) : SysState :=
  { s with cfg := { s.cfg with syncEnabled := b } }

/-! ## Analytics aggregator (spec §4.4) -/

/-- Modelled from the spec: today's raw cumulative counters for one entry
together with yesterday's snapshot when one exists. -/
structure EntryCounters where
  entryId : Nat
  viewsToday : Nat
  likesToday : Nat
  commentsToday : Nat
  prevSnapshot : Option (Nat × Nat × Nat)
deriving DecidableEq, Repr

/-- Modelled from the spec: DailyAnalytics row — catalog_entry_id, date and
the three delta metrics. -/
structure DailyAnalytics where
  catalogEntryId : Nat
  date : Nat
  viewsDelta : Int
  likesDelta : Int
  commentsDelta : Int
deriving DecidableEq, Repr

/-- delta = max(today_raw − yesterday_snapshot, 0) for one metric. -/
def deltaMetric (today prev : Nat) : Int :=
  max ((today : Int) - (prev : Int)) 0

/-- A missing prior snapshot is treated as 0 on every metric. -/
def snapshotOr0 : Option (Nat × Nat × Nat) → Nat × Nat × Nat
  | none => (0, 0, 0)
  | some s => s

/-- Modelled from the spec: the DailyAnalytics row recompute writes for one
entry and date. -/
def computeRow (date : Nat) (c : EntryCounters) : DailyAnalytics :=
  ⟨c.entryId, date,
    deltaMetric c.viewsToday (snapshotOr0 c.prevSnapshot).1,
    deltaMetric c.likesToday (snapshotOr0 c.prevSnapshot).2.1,
    deltaMetric c.commentsToday (snapshotOr0 c.prevSnapshot).2.2⟩

/-- The DailyAnalytics table. -/
structure AnalyticsState where
  rows : List DailyAnalytics
deriving DecidableEq, Repr

/-- Modelled from the spec: `recompute(date)` upserts one row per entry per
date, overwriting any earlier rows for that date, and reports
entries_processed. -/
def recompute (date : Nat) (entries : List EntryCounters) (st : AnalyticsState) :
    AnalyticsState × Nat :=
  (⟨st.rows.filter (fun r => r.date != date) ++ entries.map (computeRow date)⟩,
   entries.length)

/-! ## Frontend: admin sync page (SyncManagementPage.jsx) -/

/-- From SyncManagementPage.jsx line 145: the page treats the system as
enabled exactly when the stored config value is the string "true"
(JavaScript strict equality). -/
def syncEnabledOnPage (v : String) : Bool :=
  v == "true"

/-- From SyncManagementPage.jsx line 491: the System Information label. -/
def syncSystemLabel (v : String) : String :=
  if syncEnabledOnPage v then "Enabled" else "Disabled"

/-- Which backend call the toggle button issues. -/
inductive ToggleAction where
  | enable
  | disable
deriving DecidableEq, Repr

/-- From SyncManagementPage.jsx lines 78-92: handleToggleSync calls
disableSync when the value reads enabled, else enableSync. -/
def handleToggleSync (v : String) : ToggleAction :=
  if syncEnabledOnPage v then .disable else .enable

/-- From SyncManagementPage.jsx lines 267-302: the Manual Actions buttons
carry disabled={syncing}; the stored sync_enabled value plays no part. -/
def manualActionProhibited (syncing : Bool) : Bool :=
  syncing

/-! ## Frontend: contribution form episode list (ContributionForm.jsx) -/

/-- From ContributionForm.jsx lines 593-603: the episode object built by
handleAddSingleEpisode (id is Date.now(), episode_number is
episodes.length + 1, season_number 1). -/
structure FormEpisode where
  id : Nat
  episodeNumber : Nat
  title : String
  description : String
  thumbnail : String
  youtubeVideoId : String
  publishedDate : String
  duration : Nat
  seasonNumber : Nat
deriving DecidableEq, Repr

/-- The fields of the fetched YouTube video used by
handleAddSingleEpisode. -/
structure VideoData where
  title : String
  description : String
  thumbnailCloudinary : String
  videoId : String
  publishedAt : String
  duration : Nat
deriving DecidableEq, Repr

/-- From ContributionForm.jsx lines 583-615: append one episode numbered
episodes.length + 1 (nowId models Date.now()). -/
def handleAddSingleEpisode (episodes : List FormEpisode) (nowId : Nat)
    (v : VideoData) : List FormEpisode :=
  episodes ++
    [⟨nowId, episodes.length + 1, v.title, v.description, v.thumbnailCloudinary,
      v.videoId, v.publishedAt, v.duration, 1⟩]

/-- From ContributionForm.jsx lines 664-669: deleting keeps exactly the
episodes whose id differs from the given episodeId. -/
def handleDeleteEpisode (episodes : List FormEpisode) (episodeId : Nat) :
    List FormEpisode :=
  episodes.filter (fun ep => ep.id != episodeId)

/-! ## Auxiliary predicate and concrete scenario inputs -/

/-- An entry with no new upstream videos: the platform lists its playlist
successfully and every returned video id is already stored. -/
def cleanEntry (platform : String → Option (List PlaylistItem))
    (eps : List Episode) (e : CatalogEntry) : Prop :=
  ∃ items, platform e.externalPlaylistId = some items ∧
    ∀ it ∈ items, (storedIds e.id eps).contains it.videoId = true

/-- Image-hosting collaborator used in the concrete scenarios. -/
def mirrorC : String → String := fun u => String.append "m:" u

/-- Concrete inputs for the no-new-upstream-videos runs (C1). -/
def c1Cfg : SyncConfig := ⟨true, 50, 100, 90⟩

def c1Item : PlaylistItem := ⟨"V1", "t1", "u1", "d1", true, true⟩

def c1Platform : String → Option (List PlaylistItem) := fun _ => some [c1Item]

def c1Entry : CatalogEntry := ⟨1, "PL", true⟩

def c1St : SyncState := ⟨[⟨0, 1, "V1", "t1", "u1", "d1", 1⟩], [], ⟨0, 0⟩, 1⟩

/-- Concrete system states for the running-guard scenarios (C3). -/
def sysRun : SysState :=
  ⟨true, [⟨1, "full_sync", .running, 0, 0, 0, 0⟩], 2, ⟨true, 50, 100, 90⟩⟩

def sysIdle : SysState :=
  ⟨false, [⟨1, "full_sync", .completed, 3, 1, 0, 2⟩], 2, ⟨true, 50, 100, 90⟩⟩

/-- Concrete disabled system state (C7). -/
def sysDisabled : SysState :=
  ⟨false, [], 1, ⟨false, 50, 100, 90⟩⟩

/-- Scenario C inputs (C4): quota_limit=10, three entries at 6 units each
(one listing call plus five unseen videos). -/
def c4Cfg : SyncConfig := ⟨true, 50, 10, 90⟩

def c4Items (s : String) : List PlaylistItem :=
  [⟨String.append s "1", "", "", "", true, true⟩,
   ⟨String.append s "2", "", "", "", true, true⟩,
   ⟨String.append s "3", "", "", "", true, true⟩,
   ⟨String.append s "4", "", "", "", true, true⟩,
   ⟨String.append s "5", "", "", "", true, true⟩]

def c4Platform : String → Option (List PlaylistItem) := fun pid =>
  if pid == "P1" then some (c4Items "a")
  else if pid == "P2" then some (c4Items "b")
  else if pid == "P3" then some (c4Items "c")
  else none

def c4Entries : List CatalogEntry :=
  [⟨1, "P1", true⟩, ⟨2, "P2", true⟩, ⟨3, "P3", true⟩]

def c4St : SyncState := ⟨[], [], ⟨0, 0⟩, 0⟩

def c4Job : SyncJob := ⟨1, "full_sync", .running, 0, 0, 0, 0⟩

/-- A configuration whose quota is already unavailable (C4 witness). -/
def c4wCfg : SyncConfig := ⟨true, 50, 0, 90⟩

def c4wPlatform : String → Option (List PlaylistItem) := fun _ => some []

/-- Scenario A/B inputs (C6): entry E first holding only V1, then V1
followed by the newly added V2. -/
def c6Cfg : SyncConfig := ⟨true, 50, 100, 90⟩

def c6V1 : PlaylistItem := ⟨"V1", "t1", "u1", "d1", true, true⟩

def c6V2 : PlaylistItem := ⟨"V2", "t2", "u2", "d2", true, true⟩

def c6Entry : CatalogEntry := ⟨1, "PL", true⟩

def c6St0 : SyncState := ⟨[], [], ⟨0, 0⟩, 0⟩

def c6Plat1 : String → Option (List PlaylistItem) := fun pid =>
  if pid == "PL" then some [c6V1] else none

def c6Plat2 : String → Option (List PlaylistItem) := fun pid =>
  if pid == "PL" then some [c6V1, c6V2] else none

/-- A new item whose thumbnail mirror fails (C8 witness). -/
def c8Item : PlaylistItem := ⟨"V9", "t9", "u9", "d9", true, false⟩

def c8St : SyncState := ⟨[], [], ⟨0, 0⟩, 0⟩

/-- Three-episode contribution form list (C10). -/
def c10Episodes : List FormEpisode :=
  [⟨1, 1, "a", "", "", "", "", 0, 1⟩,
   ⟨2, 2, "b", "", "", "", "", 0, 1⟩,
   ⟨3, 3, "c", "", "", "", "", 0, 1⟩]

def c10Video : VideoData := ⟨"d", "", "", "", "", 0⟩

/-! ## Helper lemmas -/

theorem recompute_idem (date : Nat) (entries : List EntryCounters)
    (st : AnalyticsState) :
    (recompute date entries (recompute date entries st).1).1 =
      (recompute date entries st).1 := by
  simp only [recompute]
  congr 1
  rw [List.filter_append, List.filter_filter]
  have h1 : (List.filter (fun r => (r.date != date) && (r.date != date)) st.rows) =
      st.rows.filter (fun r => r.date != date) := by
    simp [Bool.and_self]
  have h2 : (entries.map (computeRow date)).filter (fun r => r.date != date) = [] := by
    rw [List.filter_eq_nil_iff]
    intro a ha
    simp only [List.mem_map] at ha
    obtain ⟨c, _, rfl⟩ := ha
    simp [computeRow]
  rw [h1, h2, List.append_nil]

theorem runningCount_append (a b : List SyncJob) :
    runningCount (a ++ b) = runningCount a + runningCount b := by
  simp [runningCount, List.filter_append]

theorem startOperation_inv (jobType : String) (s : SysState) (h : SysInv s) :
    SysInv (startOperation jobType s).1 := by
  obtain ⟨h1, h2⟩ := h
  by_cases hr : s.isRunning
  · simp [startOperation, hr]
    exact ⟨h1, h2⟩
  · simp only [Bool.not_eq_true] at hr
    have h0 := h2 hr
    simp only [startOperation, hr, Bool.false_eq_true, if_false]
    constructor
    · simp only [runningCount_append, h0]
      simp [runningCount]
    · intro hfalse
      simp at hfalse

theorem finishOperation_inv (final : JobStatus) (s : SysState)
    (h : final ≠ .running) : SysInv (finishOperation final s) := by
  have hz : runningCount ((finishOperation final s).jobs) = 0 := by
    simp only [finishOperation, runningCount]
    rw [List.length_eq_zero, List.filter_eq_nil_iff]
    intro a ha
    simp only [List.mem_map] at ha
    obtain ⟨j, _, rfl⟩ := ha
    simp only [markTerminal]
    by_cases hj : j.status = .running
    · simp [hj, h]
    · simp [hj]
  exact ⟨by simp [hz], fun _ => hz⟩

theorem ids_after_insert (mirror : String → String) (jobId entryId : Nat)
    (items : List PlaylistItem) :
    ∀ st : SyncState,
      (insertNewItems mirror jobId entryId st items).1.episodes.map
          (fun e => e.externalVideoId) =
        st.episodes.map (fun e => e.externalVideoId) ++
          (items.filter (fun it => it.detailOk)).map (fun it => it.videoId) := by
  induction items with
  | nil => intro st; simp [insertNewItems]
  | cons it rest ih =>
    intro st
    by_cases hd : it.detailOk
    · by_cases hm : it.mirrorOk <;>
        simp [insertNewItems, processNewItem, hd, hm, ih, List.filter_cons]
    · simp [insertNewItems, processNewItem, hd, ih, List.filter_cons]

theorem sync_quota_state (cfg : SyncConfig) (mirror : String → String)
    (platform : String → Option (List PlaylistItem)) (jobId : Nat)
    (entry : CatalogEntry) (st : SyncState)
    (h : (sync cfg mirror platform jobId entry st).2 = .quotaExceeded) :
    (sync cfg mirror platform jobId entry st).1 = st := by
  unfold sync at h ⊢
  cases hp : platform entry.externalPlaylistId with
  | none => simp [hp] at h
  | some items =>
    simp only [hp] at h ⊢
    by_cases hr : reserve cfg st.usage (1 + (newItems entry.id st.episodes items).length)
    · simp [hr] at h
    · simp [hr]

theorem clean_sync (cfg : SyncConfig) (mirror : String → String)
    (platform : String → Option (List PlaylistItem)) (jobId : Nat)
    (e : CatalogEntry) (st : SyncState)
    (hc : cleanEntry platform st.episodes e)
    (hq : reserve cfg st.usage 1 = true) :
    sync cfg mirror platform jobId e st =
      ({ st with usage := record st.usage 1 }, .ok false 0) := by
  obtain ⟨items, hp, hall⟩ := hc
  have hfresh : newItems e.id st.episodes items = [] := by
    rw [newItems, List.filter_eq_nil_iff]
    intro it hit
    simpa using hall it hit
  unfold sync
  rw [hp]
  simp only [hfresh, List.length_nil, Nat.add_zero, hq, if_true, insertNewItems]
  simp

theorem runBatch_clean (cfg : SyncConfig) (mirror : String → String)
    (platform : String → Option (List PlaylistItem)) :
    ∀ (entries : List CatalogEntry) (st : SyncState) (job : SyncJob),
      (∀ e ∈ entries, cleanEntry platform st.episodes e) →
      100 * (st.usage.unitsConsumed + entries.length) ≤
        cfg.quotaLimit * cfg.pauseThresholdPct →
      runBatch cfg mirror platform entries st job =
        ({ st with usage :=
            ⟨st.usage.unitsConsumed + entries.length,
             st.usage.requestCount + entries.length⟩ },
         { job with
            status := .completed
            itemsProcessed := job.itemsProcessed + entries.length }) := by
  intro entries
  induction entries with
  | nil =>
    intro st job _ _
    rw [runBatch]
    constructor
  | cons e rest ih =>
    intro st job hc hq
    have hr1 : reserve cfg st.usage 1 = true := by
      rw [reserve, decide_eq_true_eq]
      calc 100 * (st.usage.unitsConsumed + 1)
          ≤ 100 * (st.usage.unitsConsumed + (e :: rest).length) := by
            apply Nat.mul_le_mul_left
            simp [Nat.add_le_add_iff_left]
        _ ≤ cfg.quotaLimit * cfg.pauseThresholdPct := hq
    have hs := clean_sync cfg mirror platform job.id e st (hc e (by simp)) hr1
    rw [runBatch]
    simp only [hs]
    have hrest :
        ∀ e2 ∈ rest, cleanEntry platform
          ({ st with usage := record st.usage 1 } : SyncState).episodes e2 := by
      intro e2 he2
      exact hc e2 (by simp [he2])
    have hq2 : 100 * (({ st with usage := record st.usage 1 } : SyncState).usage.unitsConsumed
        + rest.length) ≤ cfg.quotaLimit * cfg.pauseThresholdPct := by
      simp only [record]
      calc 100 * (st.usage.unitsConsumed + 1 + rest.length)
          = 100 * (st.usage.unitsConsumed + (e :: rest).length) := by
            congr 1
            simp [List.length_cons]
            omega
        _ ≤ cfg.quotaLimit * cfg.pauseThresholdPct := hq
    rw [ih _ _ hrest hq2]
    simp only [record, List.length_cons]
    have h1 : st.usage.unitsConsumed + 1 + rest.length =
        st.usage.unitsConsumed + (rest.length + 1) := by omega
    have h2 : st.usage.requestCount + 1 + rest.length =
        st.usage.requestCount + (rest.length + 1) := by omega
    have h3 : job.itemsProcessed + 1 + rest.length =
        job.itemsProcessed + (rest.length + 1) := by omega
    simp [h1, h2, h3]

/-! ## Claims -/

/-- C2: reserve(cost) is true iff today's units_consumed + cost ≤
quota_limit × pause_threshold_pct (the stored percentage read as a
rational), and with quota_limit=100, pause_threshold_pct=0.9, once
units_consumed=90 every reserve(cost) with cost>0 returns false. -/
theorem quota_reserve_threshold :
    (∀ (cfg : SyncConfig) (usage : ApiUsageRecord) (cost : Nat),
      reserve cfg usage cost = true ↔
        (usage.unitsConsumed : ℚ) + cost ≤
          (cfg.quotaLimit : ℚ) * ((cfg.pauseThresholdPct : ℚ) / 100)) ∧
    (∀ cost : Nat, 0 < cost →
      reserve ⟨true, 50, 100, 90⟩ ⟨90, 0⟩ cost = false) := by
  constructor
  · intro cfg usage cost
    rw [reserve, decide_eq_true_eq,
      mul_div_assoc', le_div_iff₀ (by norm_num : (0:ℚ) < 100)]
    constructor
    · intro h
      have h' : ((100 * (usage.unitsConsumed + cost) : ℕ) : ℚ) ≤
          ((cfg.quotaLimit * cfg.pauseThresholdPct : ℕ) : ℚ) := by exact_mod_cast h
      push_cast at h'
      linarith
    · intro h
      have h' : ((100 * (usage.unitsConsumed + cost) : ℕ) : ℚ) ≤
          ((cfg.quotaLimit * cfg.pauseThresholdPct : ℕ) : ℚ) := by push_cast; linarith
      exact_mod_cast h'
  · intro cost h
    simp only [reserve, decide_eq_false_iff_not]
    omega

/-- C2 witness: at units_consumed=90 and cost=5 reserve answers false,
while at units_consumed=0 the iff characterisation holds concretely. -/
theorem quota_reserve_threshold_witness :
    reserve ⟨true, 50, 100, 90⟩ ⟨90, 0⟩ 5 = false ∧
    (reserve ⟨true, 50, 100, 90⟩ ⟨0, 0⟩ 5 = true ↔
      ((0 : ℚ) + 5 ≤ (100 : ℚ) * ((90 : ℚ) / 100))) :=
  ⟨quota_reserve_threshold.2 5 (by decide),
   quota_reserve_threshold.1 ⟨true, 50, 100, 90⟩ ⟨0, 0⟩ 5⟩

/-- C9: the admin sync page treats the system as enabled exactly when the
stored sync_enabled value is the string "true": for every other stored
value the System Information label reads Disabled and the toggle invokes
enableSync rather than disableSync; for "true" it reads Enabled and the
toggle invokes disableSync. -/
theorem page_sync_enabled_strict :
    (∀ v : String, v ≠ "true" →
      syncSystemLabel v = "Disabled" ∧ handleToggleSync v = .enable) ∧
    syncSystemLabel "true" = "Enabled" ∧ handleToggleSync "true" = .disable := by
  refine ⟨?_, by decide, by decide⟩
  intro v hv
  have h : syncEnabledOnPage v = false := by
    simp [syncEnabledOnPage, hv]
  constructor
  · simp [syncSystemLabel, h]
  · simp [handleToggleSync, h]

/-- C9 witness: the capitalised string "True" and the string "1" both read
Disabled and toggle to enableSync. -/
theorem page_sync_enabled_strict_witness :
    (syncSystemLabel "True" = "Disabled" ∧ handleToggleSync "True" = .enable) ∧
    (syncSystemLabel "1" = "Disabled" ∧ handleToggleSync "1" = .enable) :=
  ⟨page_sync_enabled_strict.1 "True" (by decide),
   page_sync_enabled_strict.1 "1" (by decide)⟩

/-- C10: deleting an episode in the contribution form keeps exactly the
episodes whose id differs from the given episodeId, with fields and
relative order unchanged (the survivors form a sublist), and because a
subsequently added episode is numbered episodes.length + 1 rather than
max + 1, adding after deleting a non-last episode duplicates an existing
episode_number: deleting the 2nd of three episodes and adding one yields
the episode_number list [1, 3, 3]. -/
theorem delete_then_add_duplicate_number :
    (∀ (eps : List FormEpisode) (i : Nat) (e : FormEpisode),
      e ∈ handleDeleteEpisode eps i ↔ e ∈ eps ∧ e.id ≠ i) ∧
    (∀ (eps : List FormEpisode) (i : Nat),
      List.Sublist (handleDeleteEpisode eps i) eps) ∧
    ((handleAddSingleEpisode (handleDeleteEpisode c10Episodes 2) 99 c10Video).map
        (fun e => e.episodeNumber) = [1, 3, 3]) := by
  refine ⟨?_, ?_, by decide⟩
  · intro eps i e
    simp [handleDeleteEpisode, List.mem_filter]
  · intro eps i
    exact List.filter_sublist eps

/-- C5: recompute writes each delta metric as max(today_raw −
yesterday_snapshot, 0): a missing prior snapshot acts as the zero snapshot,
deltas are never negative, a raw-counter decrease clamps to 0, and running
recompute twice for the same date yields identical DailyAnalytics rows. -/
theorem recompute_clamped_idempotent :
    (∀ (date : Nat) (c : EntryCounters), c.prevSnapshot = none →
      computeRow date c = computeRow date { c with prevSnapshot := some (0, 0, 0) }) ∧
    (∀ (date : Nat) (c : EntryCounters),
      0 ≤ (computeRow date c).viewsDelta ∧
      0 ≤ (computeRow date c).likesDelta ∧
      0 ≤ (computeRow date c).commentsDelta) ∧
    (computeRow 7 ⟨1, 5, 5, 5, some (9, 9, 9)⟩ = ⟨1, 7, 0, 0, 0⟩) ∧
    (∀ (date : Nat) (entries : List EntryCounters) (st : AnalyticsState),
      (recompute date entries (recompute date entries st).1).1 =
        (recompute date entries st).1) := by
  refine ⟨?_, ?_, by decide, recompute_idem⟩
  · intro date c h
    simp [computeRow, snapshotOr0, h]
  · intro date c
    exact ⟨le_max_right _ _, le_max_right _ _, le_max_right _ _⟩

/-- C5 witness: an entry with no prior snapshot computes the same row as
one with the zero snapshot, concretely. -/
theorem recompute_clamped_idempotent_witness :
    computeRow 3 ⟨1, 4, 5, 6, none⟩ =
      computeRow 3 { (⟨1, 4, 5, 6, none⟩ : EntryCounters) with prevSnapshot := some (0, 0, 0) } :=
  recompute_clamped_idempotent.1 3 ⟨1, 4, 5, 6, none⟩ rfl

/-- C3: at most one SyncJob is running system-wide: any trigger invoked
while is_running=true returns "already running" with no state mutation and
no new SyncJob row; starting while idle and finishing a run both preserve
the invariant that at most one job is in status running (and none when the
is_running indicator is clear). -/
theorem single_running_job_guard :
    (∀ (jobType : String) (s : SysState), s.isRunning = true →
      startOperation jobType s = (s, .alreadyRunning)) ∧
    (∀ (jobType : String) (s : SysState), SysInv s →
      SysInv (startOperation jobType s).1) ∧
    (∀ (final : JobStatus) (s : SysState), final ≠ .running →
      SysInv (finishOperation final s)) := by
  refine ⟨?_, startOperation_inv, finishOperation_inv⟩
  intro jobType s h
  simp [startOperation, h]

/-- C3 witness: with a running full_sync job, a new manual full_sync
returns already-running and changes nothing; starting from the idle state
and finishing the running one both satisfy the invariant. -/
theorem single_running_job_guard_witness :
    startOperation "full_sync" sysRun = (sysRun, .alreadyRunning) ∧
    SysInv (startOperation "new_episode_check" sysIdle).1 ∧
    SysInv (finishOperation .completed sysRun) :=
  ⟨single_running_job_guard.1 "full_sync" sysRun rfl,
   single_running_job_guard.2.1 "new_episode_check" sysIdle
     ⟨by decide, fun _ => by decide⟩,
   single_running_job_guard.2.2 .completed sysRun (by decide)⟩

/-- C7: with sync_enabled=false the Scheduler's calendar trigger is a
no-op, while a manual operation still reaches the same Orchestrator entry
point (startOperation) and behaves identically whatever the stored
sync_enabled flag; on the admin page the Manual Actions buttons are
blocked only while a sync call is in flight. -/
theorem disabled_blocks_only_schedule :
    (∀ (jobType : String) (s : SysState), s.cfg.syncEnabled = false →
      scheduledTrigger jobType s = (s, none)) ∧
    (∀ (jobType : String) (s : SysState) (b : Bool),
      (manualTrigger jobType (setSyncEnabled b s)).2 = (manualTrigger jobType s).2 ∧
      (manualTrigger jobType (setSyncEnabled b s)).1.jobs =
        (manualTrigger jobType s).1.jobs) ∧
    (∀ (jobType : String) (s : SysState),
      manualTrigger jobType s = startOperation jobType s) ∧
    (∀ syncing : Bool, manualActionProhibited syncing = syncing) := by
  refine ⟨?_, ?_, fun _ _ => rfl, fun _ => rfl⟩
  · intro jobType s h
    simp [scheduledTrigger, h]
  · intro jobType s b
    by_cases hr : s.isRunning <;>
      simp [manualTrigger, startOperation, setSyncEnabled, hr]

/-- C7 witness: on the concrete disabled state the scheduled trigger does
nothing while the manual trigger still starts a job. -/
theorem disabled_blocks_only_schedule_witness :
    scheduledTrigger "full_sync" sysDisabled = (sysDisabled, none) ∧
    (manualTrigger "full_sync" (setSyncEnabled false sysDisabled)).2 =
      (manualTrigger "full_sync" sysDisabled).2 :=
  ⟨disabled_blocks_only_schedule.1 "full_sync" sysDisabled rfl,
   (disabled_blocks_only_schedule.2.1 "full_sync" sysDisabled false).1⟩

/-- C8: during per-entry sync a single mirror or detail failure never
aborts the entry — the episodes inserted over a batch of new items are
exactly those whose detail fetch succeeds, items after a failure
included; on a thumbnail-mirror failure the episode is still inserted
with the original external URL as thumbnail while an ImageMirrorError is
logged for that item; and on a detail-fetch failure a SyncError is logged
for that item while no episode is inserted and the rest of the state is
untouched, so the loop continues with the remaining items. -/
theorem item_failure_isolated :
    (∀ (mirror : String → String) (jobId entryId : Nat)
        (items : List PlaylistItem) (st : SyncState),
      (insertNewItems mirror jobId entryId st items).1.episodes.map
          (fun e => e.externalVideoId) =
        st.episodes.map (fun e => e.externalVideoId) ++
          (items.filter (fun it => it.detailOk)).map (fun it => it.videoId)) ∧
    (∀ (mirror : String → String) (jobId entryId : Nat) (st : SyncState)
        (item : PlaylistItem),
      item.detailOk = true → item.mirrorOk = false →
      processNewItem mirror jobId entryId st item =
        ({ st with
            episodes := st.episodes ++
              [⟨st.nextEpisodeId, entryId, item.videoId, item.title,
                item.thumbnailUrl, item.publishedAt,
                maxSeq entryId st.episodes + 1⟩]
            errors := st.errors ++
              [⟨jobId, "ImageMirrorError", "episode", item.videoId,
                "thumbnail mirror failed"⟩]
            nextEpisodeId := st.nextEpisodeId + 1 }, 1)) ∧
    (∀ (mirror : String → String) (jobId entryId : Nat) (st : SyncState)
        (item : PlaylistItem),
      item.detailOk = false →
      processNewItem mirror jobId entryId st item =
        ({ st with
            errors := st.errors ++
              [⟨jobId, "PlatformError", "episode", item.videoId,
                "detail fetch failed"⟩] }, 0)) := by
  refine ⟨?_, ?_, ?_⟩
  · intro mirror jobId entryId items st
    exact ids_after_insert mirror jobId entryId items st
  · intro mirror jobId entryId st item hd hm
    simp [processNewItem, hd, hm]
  · intro mirror jobId entryId st item hd
    simp [processNewItem, hd]

/-- C8 witness: the mirror-failing item c8Item is still inserted from the
empty state with its original thumbnail URL, alongside the logged
ImageMirrorError; and the detail-failing item logs a SyncError while
inserting nothing. -/
theorem item_failure_isolated_witness :
    (processNewItem (fun u => String.append "m:" u) 1 1 c8St c8Item =
      ({ c8St with
          episodes := c8St.episodes ++
            [⟨c8St.nextEpisodeId, 1, c8Item.videoId, c8Item.title,
              c8Item.thumbnailUrl, c8Item.publishedAt,
              maxSeq 1 c8St.episodes + 1⟩]
          errors := c8St.errors ++
            [⟨1, "ImageMirrorError", "episode", c8Item.videoId,
              "thumbnail mirror failed"⟩]
          nextEpisodeId := c8St.nextEpisodeId + 1 }, 1)) ∧
    (processNewItem (fun u => String.append "m:" u) 1 1 c8St
        ⟨"V8", "t8", "u8", "d8", false, true⟩ =
      ({ c8St with
          errors := c8St.errors ++
            [⟨1, "PlatformError", "episode", "V8", "detail fetch failed"⟩] }, 0)) :=
  ⟨item_failure_isolated.2.1 (fun u => String.append "m:" u) 1 1 c8St c8Item rfl rfl,
   item_failure_isolated.2.2 (fun u => String.append "m:" u) 1 1 c8St
     ⟨"V8", "t8", "u8", "d8", false, true⟩ rfl⟩

/-- C6: every episode inserted for a fetchable item is appended with
sequence_number = max stored sequence_number for that entry + 1; concretely
(Scenarios A and B) syncing entry E holding only V1 inserts Episode(V1,
seq=1), and after V2 appears upstream the next sync inserts Episode(V2,
seq=2), leaves V1's row untouched and brings the entry's episode count
to 2. -/
theorem append_sequence_max_plus_one :
    (∀ (mirror : String → String) (jobId entryId : Nat) (st : SyncState)
        (item : PlaylistItem), item.detailOk = true →
      ∃ ep : Episode,
        (processNewItem mirror jobId entryId st item).1.episodes =
          st.episodes ++ [ep] ∧
        ep.sequenceNumber = maxSeq entryId st.episodes + 1 ∧
        ep.externalVideoId = item.videoId ∧
        ep.catalogEntryId = entryId) ∧
    (sync c6Cfg mirrorC c6Plat1 1 c6Entry c6St0).1.episodes =
      [⟨0, 1, "V1", "t1", "m:u1", "d1", 1⟩] ∧
    (sync c6Cfg mirrorC c6Plat1 1 c6Entry c6St0).2 = .ok true 1 ∧
    (sync c6Cfg mirrorC c6Plat2 2 c6Entry
        (sync c6Cfg mirrorC c6Plat1 1 c6Entry c6St0).1).1.episodes =
      [⟨0, 1, "V1", "t1", "m:u1", "d1", 1⟩, ⟨1, 1, "V2", "t2", "m:u2", "d2", 2⟩] ∧
    (sync c6Cfg mirrorC c6Plat2 2 c6Entry
        (sync c6Cfg mirrorC c6Plat1 1 c6Entry c6St0).1).2 = .ok true 1 ∧
    (storedIds 1 (sync c6Cfg mirrorC c6Plat2 2 c6Entry
        (sync c6Cfg mirrorC c6Plat1 1 c6Entry c6St0).1).1.episodes).length = 2 := by
  refine ⟨?_, by decide, by decide, by decide, by decide, by decide⟩
  intro mirror jobId entryId st item hd
  refine ⟨⟨st.nextEpisodeId, entryId, item.videoId, item.title,
    (if item.mirrorOk then mirror item.thumbnailUrl else item.thumbnailUrl),
    item.publishedAt, maxSeq entryId st.episodes + 1⟩, ?_, rfl, rfl, rfl⟩
  simp [processNewItem, hd]

/-- C6 witness: inserting V2 on top of the stored V1 row appends an
episode with sequence_number 2 = maxSeq + 1. -/
theorem append_sequence_max_plus_one_witness :
    ∃ ep : Episode,
      (processNewItem mirrorC 2 1 c1St c6V2).1.episodes =
        c1St.episodes ++ [ep] ∧
      ep.sequenceNumber = maxSeq 1 c1St.episodes + 1 ∧
      ep.externalVideoId = c6V2.videoId ∧
      ep.catalogEntryId = 1 :=
  append_sequence_max_plus_one.1 mirrorC 2 1 c1St c6V2 rfl

/-- C4: when the synchronizer returns QuotaExceeded for an entry during a
batched run, the orchestrator sets status=paused and stops immediately,
counting the quota-hit entry as processed and leaving the remaining
entries unvisited; concretely (Scenario C) with quota_limit=10 and three
entries costing 6 units each, the job pauses after the 2nd entry with
status=paused, items_processed=2, items_failed=0, and the 3rd entry has no
episodes stored. -/
theorem quota_pause_stops_batch :
    (∀ (cfg : SyncConfig) (mirror : String → String)
        (platform : String → Option (List PlaylistItem))
        (e : CatalogEntry) (rest : List CatalogEntry)
        (st : SyncState) (job : SyncJob),
      (sync cfg mirror platform job.id e st).2 = .quotaExceeded →
      runBatch cfg mirror platform (e :: rest) st job =
        (st, { job with
                status := .paused
                itemsProcessed := job.itemsProcessed + 1 })) ∧
    (runBatch c4Cfg mirrorC c4Platform c4Entries c4St c4Job).2.status = .paused ∧
    (runBatch c4Cfg mirrorC c4Platform c4Entries c4St c4Job).2.itemsProcessed = 2 ∧
    (runBatch c4Cfg mirrorC c4Platform c4Entries c4St c4Job).2.itemsFailed = 0 ∧
    storedIds 2 (runBatch c4Cfg mirrorC c4Platform c4Entries c4St c4Job).1.episodes = [] ∧
    storedIds 3 (runBatch c4Cfg mirrorC c4Platform c4Entries c4St c4Job).1.episodes = [] := by
  refine ⟨?_, by decide, by decide, by decide, by decide, by decide⟩
  intro cfg mirror platform e rest st job h
  have hst := sync_quota_state cfg mirror platform job.id e st h
  rw [runBatch]
  simp only [h, hst]

/-- C4 witness: with the quota already unavailable the first entry of a
two-entry batch pauses the job immediately, leaving the state untouched. -/
theorem quota_pause_stops_batch_witness :
    runBatch c4wCfg mirrorC c4wPlatform [⟨1, "P1", true⟩, ⟨2, "P2", true⟩] c4St c4Job =
      (c4St, { c4Job with
                status := .paused
                itemsProcessed := c4Job.itemsProcessed + 1 }) :=
  quota_pause_stops_batch.1 c4wCfg mirrorC c4wPlatform
    ⟨1, "P1", true⟩ [⟨2, "P2", true⟩] c4St c4Job (by decide)

/-- C1: for entries with no new upstream videos (every listed video id
already stored) and quota available for both runs, sync is idempotent:
each call yields new_episodes=0 with the Episode table unaltered, and a
second full_sync run reports items_failed=0 while leaving Episode rows —
and hence the per-entry uniqueness of external_video_id — unaltered. -/
theorem no_upstream_change_idempotent
    (cfg : SyncConfig) (mirror : String → String)
    (platform : String → Option (List PlaylistItem))
    (entries : List CatalogEntry) (st : SyncState) (jid1 jid2 : Nat)
    (hclean : ∀ e ∈ entries, cleanEntry platform st.episodes e)
    (hq : 100 * (st.usage.unitsConsumed + 2 * entries.length) ≤
      cfg.quotaLimit * cfg.pauseThresholdPct) :
    (∀ e ∈ entries,
      sync cfg mirror platform jid1 e st =
        ({ st with usage := record st.usage 1 }, .ok false 0)) ∧
    (runBatch cfg mirror platform entries st
        ⟨jid1, "full_sync", .running, 0, 0, 0, 0⟩).1.episodes = st.episodes ∧
    (runBatch cfg mirror platform entries
        (runBatch cfg mirror platform entries st
          ⟨jid1, "full_sync", .running, 0, 0, 0, 0⟩).1
        ⟨jid2, "full_sync", .running, 0, 0, 0, 0⟩).2.itemsFailed = 0 ∧
    (runBatch cfg mirror platform entries
        (runBatch cfg mirror platform entries st
          ⟨jid1, "full_sync", .running, 0, 0, 0, 0⟩).1
        ⟨jid2, "full_sync", .running, 0, 0, 0, 0⟩).1.episodes = st.episodes := by
  have hq1 : 100 * (st.usage.unitsConsumed + entries.length) ≤
      cfg.quotaLimit * cfg.pauseThresholdPct := by
    refine le_trans ?_ hq
    apply Nat.mul_le_mul_left
    omega
  have hrun1 := runBatch_clean cfg mirror platform entries st
    ⟨jid1, "full_sync", .running, 0, 0, 0, 0⟩ hclean hq1
  have hq2 : 100 * ((st.usage.unitsConsumed + entries.length) + entries.length) ≤
      cfg.quotaLimit * cfg.pauseThresholdPct := by
    have he : (st.usage.unitsConsumed + entries.length) + entries.length =
        st.usage.unitsConsumed + 2 * entries.length := by omega
    rw [he]
    exact hq
  have hrun2 := runBatch_clean cfg mirror platform entries
    ({ st with usage := ⟨st.usage.unitsConsumed + entries.length,
        st.usage.requestCount + entries.length⟩ })
    ⟨jid2, "full_sync", .running, 0, 0, 0, 0⟩ hclean hq2
  refine ⟨?_, ?_, ?_, ?_⟩
  · intro e he
    apply clean_sync cfg mirror platform jid1 e st (hclean e he)
    rw [reserve, decide_eq_true_eq]
    have hpos : 1 ≤ entries.length := by
      have := List.length_pos.mpr (List.ne_nil_of_mem he)
      omega
    refine le_trans ?_ hq
    apply Nat.mul_le_mul_left
    omega
  · rw [hrun1]
  · rw [hrun1]
    show (runBatch cfg mirror platform entries
      ({ st with usage := ⟨st.usage.unitsConsumed + entries.length,
          st.usage.requestCount + entries.length⟩ })
      ⟨jid2, "full_sync", .running, 0, 0, 0, 0⟩).2.itemsFailed = 0
    rw [hrun2]
  · rw [hrun1]
    show (runBatch cfg mirror platform entries
      ({ st with usage := ⟨st.usage.unitsConsumed + entries.length,
          st.usage.requestCount + entries.length⟩ })
      ⟨jid2, "full_sync", .running, 0, 0, 0, 0⟩).1.episodes = st.episodes
    rw [hrun2]

/-- C1 witness: with the single entry whose only upstream video V1 is
already stored, one sync call reports ok with 0 new episodes, and the
second of two full_sync runs reports items_failed=0 with the Episode
table unchanged. -/
theorem no_upstream_change_idempotent_witness :
    sync c1Cfg mirrorC c1Platform 1 c1Entry c1St =
      ({ c1St with usage := record c1St.usage 1 }, .ok false 0) ∧
    (runBatch c1Cfg mirrorC c1Platform [c1Entry] c1St
        ⟨1, "full_sync", .running, 0, 0, 0, 0⟩).1.episodes = c1St.episodes ∧
    (runBatch c1Cfg mirrorC c1Platform [c1Entry]
        (runBatch c1Cfg mirrorC c1Platform [c1Entry] c1St
          ⟨1, "full_sync", .running, 0, 0, 0, 0⟩).1
        ⟨2, "full_sync", .running, 0, 0, 0, 0⟩).2.itemsFailed = 0 ∧
    (runBatch c1Cfg mirrorC c1Platform [c1Entry]
        (runBatch c1Cfg mirrorC c1Platform [c1Entry] c1St
          ⟨1, "full_sync", .running, 0, 0, 0, 0⟩).1
        ⟨2, "full_sync", .running, 0, 0, 0, 0⟩).1.episodes = c1St.episodes := by
  have h := no_upstream_change_idempotent c1Cfg mirrorC c1Platform [c1Entry] c1St 1 2
    (by
      intro e he
      simp only [List.mem_singleton] at he
      subst he
      exact ⟨[c1Item], rfl, by decide⟩)
    (by decide)
  exact ⟨h.1 c1Entry (by simp), h.2.1, h.2.2.1, h.2.2.2⟩
